import Mathlib

/-!
Verification of the natural-language specification of
`media/libaaudio/src/legacy/AudioStreamTrack.cpp` against a shallow
embedding of that file.

The embedding translates the member functions of `AudioStreamTrack`
into pure Lean functions over an explicit record of the mutable state
of the object.  The external sink (the `AudioTrack` collaborator) is
not implemented by this repository; every call made to it is modelled
by an explicit oracle argument carrying the value that call would have
returned, so the embedded functions are total and executable.

Parts of the repository that the source file uses but that are not
included under the sources (the base class `AudioStream`, the
`MonotonicCounter` utility, the `AAudioConvert_*` helpers and the
numeric constants of the public headers) are modelled from the spec;
each such definition carries a doc comment saying so.
-/

/-- Stream lifecycle states, from the public aaudio header (the header
itself is not among the sources; the set of states is taken from the
constants used by the source file and the spec state machine). -/
inductive aaudio_stream_state_t where
  | AAUDIO_STREAM_STATE_UNINITIALIZED
  | AAUDIO_STREAM_STATE_OPEN
  | AAUDIO_STREAM_STATE_STARTING
  | AAUDIO_STREAM_STATE_STARTED
  | AAUDIO_STREAM_STATE_PAUSING
  | AAUDIO_STREAM_STATE_PAUSED
  | AAUDIO_STREAM_STATE_FLUSHING
  | AAUDIO_STREAM_STATE_FLUSHED
  | AAUDIO_STREAM_STATE_STOPPING
  | AAUDIO_STREAM_STATE_STOPPED
  | AAUDIO_STREAM_STATE_CLOSED
deriving DecidableEq, Repr

/-- Modelled from the spec: the result space of the core.  The numeric
header defining the error codes is not among the sources, so the
results are modelled as an inductive: success, the named errors the
source file produces, and the image of the 1:1 translation table
applied to a sink-reported status. -/
inductive aaudio_result_t where
  | AAUDIO_OK
  | AAUDIO_ERROR_INVALID_STATE
  | AAUDIO_ERROR_UNEXPECTED_VALUE
  | AAUDIO_ERROR_OUT_OF_RANGE
  | androidError (status : Int)
deriving DecidableEq, Repr

/-- Modelled from the spec: the 1:1 translation table
`AAudioConvert_androidToAAudioResult` (defined in `AAudioUtilities.cpp`,
not among the sources) mapping a sink-reported status into the result
space; the zero status is success, every other status is mapped to a
distinct error. -/
def AAudioConvert_androidToAAudioResult (status : Int) : aaudio_result_t :=
  if status = 0 then .AAUDIO_OK else .androidError status

/-- Modelled from the spec: the fixed modulus at which the sink-reported
raw position counter wraps (the raw counter is a 32-bit quantity). -/
def wrapModulus : Nat := 2 ^ 32

/-- Modelled from the spec: the `MonotonicCounter` utility
(`utility/MonotonicCounter.h`, not among the sources), called
`WrappingCounter` by the spec.  It reconstructs a monotonically
increasing 64-bit count (`value`) from a fixed-width wrapping raw
counter, remembering the last observed raw value (`lastRaw`). -/
structure MonotonicCounter where
  value : Int
  lastRaw : Nat
deriving DecidableEq, Repr

/-- Modelled from the spec: fold a newly observed raw position into the
monotonic accumulator.  If the new raw value is less than the last
observed raw value a wrap has occurred and a full modulus is added
while combining, so consecutive raw positions p1 then p2 < p1 increase
the reconstructed value by (M - p1) + p2; otherwise the value grows by
the raw delta. -/
def MonotonicCounter.update32 (c : MonotonicCounter) (raw : Nat) : MonotonicCounter :=
  if raw < c.lastRaw then
    { value := c.value + (((wrapModulus - c.lastRaw) + raw : Nat) : Int), lastRaw := raw }
  else
    { value := c.value + ((raw - c.lastRaw : Nat) : Int), lastRaw := raw }

/-- Modelled from the spec: add a signed delta directly to the 64-bit
count (used by the frame accountant of the base class). -/
def MonotonicCounter.increment (c : MonotonicCounter) (delta : Int) : MonotonicCounter :=
  { c with value := c.value + delta }

/-- Modelled from the spec: reset the wrapping (low-bits) portion of the
accumulator to zero, keeping the reconstructed 64-bit value. -/
def MonotonicCounter.reset32 (c : MonotonicCounter) : MonotonicCounter :=
  { c with lastRaw := 0 }

/-- Result of a sink `getPosition` call: either a wrapped position or a
nonzero status (the source checks the status against OK and maps it). -/
inductive PollResult where
  | ok (position : Nat)
  | err (status : Int)
deriving DecidableEq, Repr

/-- Commands the embedded operations issue to the sink, recorded so
that theorems can speak about which sink calls were (not) made. -/
inductive SinkCmd where
  | flush
deriving DecidableEq, Repr

/-- The mutable state of one `AudioStreamTrack` object: the base-class
stream state and frame accountant, the pause/start position snapshots
of the derived class, whether the sink handle (`mAudioTrack`) is
non-null, and the negotiated stream attributes the embedded operations
read (`getBytesPerFrame` of the base class is carried as a field). -/
structure AudioStreamTrack where
  mState : aaudio_stream_state_t
  mFramesRead : MonotonicCounter
  mFramesWritten : MonotonicCounter
  mPositionWhenStarting : Nat
  mPositionWhenPausing : Nat
  mHasTrack : Bool
  mSampleRate : Int
  mSamplesPerFrame : Int
  mFormat : Int
  bytesPerFrame : Nat
deriving DecidableEq, Repr

/-- Actual (negotiated) parameters reported by a successfully
constructed sink, read back by `open` (the sink is authoritative). -/
structure SinkParams where
  channelCount : Int
  sampleRate : Int
  format : Int
deriving DecidableEq, Repr

/-- Embedding of `AudioStreamTrack::close` (source lines 107-115): if
the state is not yet CLOSED, release the sink handle and set the state
to CLOSED; always succeeds. -/
def AudioStreamTrack.close (st : AudioStreamTrack) : aaudio_result_t × AudioStreamTrack :=
  if st.mState ≠ .AAUDIO_STREAM_STATE_CLOSED then
    (.AAUDIO_OK, { st with mHasTrack := false, mState := .AAUDIO_STREAM_STATE_CLOSED })
  else
    (.AAUDIO_OK, st)

/-- Embedding of `AudioStreamTrack::open` (source lines 47-105).
`baseResult` is the outcome of the base-class `AudioStream::open`
(not among the sources; modelled from the spec as parameter bookkeeping
that can fail, changing no embedded state).  The construction of the
sink itself is external: `initCheckStatus` is the status reported by
`initCheck()` on the freshly created sink and `sink` carries the actual
negotiated parameters read back on success.  The argument conversions
passed to the sink constructor (channel-mask and format defaulting)
only feed that external construction and are elided.  On an
`initCheck` failure the source calls `close()` and returns the mapped
status. -/
def AudioStreamTrack.openStream (st : AudioStreamTrack) (baseResult : aaudio_result_t)
    (initCheckStatus : Int) (sink : SinkParams) : aaudio_result_t × AudioStreamTrack :=
  if baseResult ≠ .AAUDIO_OK then
    (baseResult, st)
  else
    let st1 := { st with mHasTrack := true }
    if initCheckStatus ≠ 0 then
      (AAudioConvert_androidToAAudioResult initCheckStatus, st1.close.2)
    else
      (.AAUDIO_OK, { st1 with
        mSamplesPerFrame := sink.channelCount,
        mSampleRate := sink.sampleRate,
        mFormat := sink.format,
        mState := .AAUDIO_STREAM_STATE_OPEN })

/-- Embedding of `AudioStreamTrack::requestPause` (source lines
136-152): invalid-state if the sink is absent or the state is neither
STARTING nor STARTED; otherwise mark PAUSING, ask the sink to pause,
and snapshot the current wrapped position (`poll` is the sink
`getPosition` reply; on a failing poll the mapped error is returned
with the state already PAUSING and the snapshot unchanged). -/
def AudioStreamTrack.requestPause (st : AudioStreamTrack) (poll : PollResult) :
    aaudio_result_t × AudioStreamTrack :=
  if st.mHasTrack = false then
    (.AAUDIO_ERROR_INVALID_STATE, st)
  else if st.mState ≠ .AAUDIO_STREAM_STATE_STARTING ∧
          st.mState ≠ .AAUDIO_STREAM_STATE_STARTED then
    (.AAUDIO_ERROR_INVALID_STATE, st)
  else
    let st1 := { st with mState := .AAUDIO_STREAM_STATE_PAUSING }
    match poll with
    | .err s => (AAudioConvert_androidToAAudioResult s, st1)
    | .ok q => (.AAUDIO_OK, { st1 with mPositionWhenPausing := q })

/-- Embedding of `AudioStreamTrack::requestFlush` (source lines
154-165): invalid-state if the sink is absent or the state is not
PAUSED; otherwise mark FLUSHING, fold the outstanding
written-minus-read gap into the read counter, issue the sink flush,
and reset the wrapping portion of the written-frame accumulator.  The
third component records the sink commands issued.  The fold uses the
base-class accessors: in state FLUSHING the derived `getFramesRead`
does not poll, so the gap is the difference of the stored 64-bit
counts. -/
def AudioStreamTrack.requestFlush (st : AudioStreamTrack) :
    aaudio_result_t × AudioStreamTrack × List SinkCmd :=
  if st.mHasTrack = false then
    (.AAUDIO_ERROR_INVALID_STATE, st, [])
  else if st.mState ≠ .AAUDIO_STREAM_STATE_PAUSED then
    (.AAUDIO_ERROR_INVALID_STATE, st, [])
  else
    let st1 := { st with mState := .AAUDIO_STREAM_STATE_FLUSHING }
    let st2 := { st1 with
      mFramesRead := st1.mFramesRead.increment (st1.mFramesWritten.value - st1.mFramesRead.value) }
    let st3 := { st2 with mFramesWritten := st2.mFramesWritten.reset32 }
    (.AAUDIO_OK, st3, [SinkCmd.flush])

/-- Embedding of `AudioStreamTrack::updateState` (source lines 178-221).
`hasStarted` and `stopped` are the sink-reported flags and `poll` the
sink `getPosition` reply for the branches that poll.  Sink query
failures are mapped and returned with the state unchanged; states with
no pending transition return success unchanged. -/
def AudioStreamTrack.updateState (st : AudioStreamTrack) (hasStarted stopped : Bool)
    (poll : PollResult) : aaudio_result_t × AudioStreamTrack :=
  match st.mState with
  | .AAUDIO_STREAM_STATE_STARTING =>
      if hasStarted then (.AAUDIO_OK, { st with mState := .AAUDIO_STREAM_STATE_STARTED })
      else (.AAUDIO_OK, st)
  | .AAUDIO_STREAM_STATE_PAUSING =>
      if stopped then
        match poll with
        | .err s => (AAudioConvert_androidToAAudioResult s, st)
        | .ok position =>
            if position = st.mPositionWhenPausing then
              (.AAUDIO_OK, { st with mState := .AAUDIO_STREAM_STATE_PAUSED,
                                     mPositionWhenPausing := position })
            else
              (.AAUDIO_OK, { st with mPositionWhenPausing := position })
      else (.AAUDIO_OK, st)
  | .AAUDIO_STREAM_STATE_FLUSHING =>
      match poll with
      | .err s => (AAudioConvert_androidToAAudioResult s, st)
      | .ok position =>
          if position = 0 then (.AAUDIO_OK, { st with mState := .AAUDIO_STREAM_STATE_FLUSHED })
          else (.AAUDIO_OK, st)
  | .AAUDIO_STREAM_STATE_STOPPING =>
      if stopped then (.AAUDIO_OK, { st with mState := .AAUDIO_STREAM_STATE_STOPPED })
      else (.AAUDIO_OK, st)
  | _ => (.AAUDIO_OK, st)

/-- Driver folding a list of `updateState` observations (started flag,
stopped flag, position poll) over a stream, keeping the final state. -/
def runUpdateState : AudioStreamTrack → List (Bool × Bool × PollResult) → AudioStreamTrack
  | st, [] => st
  | st, (hs, sp, poll) :: rest => runUpdateState (st.updateState hs sp poll).2 rest

/-- Embedding of `AudioStreamTrack::getFramesRead` (source lines
278-294): only in STARTING, STARTED or STOPPING is the sink position
polled; on a successful poll the wrapped position is folded into the
read-side monotonic accumulator (a failing poll is ignored).  The
base-class `AudioStream::getFramesRead` result, the stored 64-bit
count, is returned together with the updated object state. -/
def AudioStreamTrack.getFramesRead (st : AudioStreamTrack) (poll : PollResult) :
    Int × AudioStreamTrack :=
  match st.mState with
  | .AAUDIO_STREAM_STATE_STARTING
  | .AAUDIO_STREAM_STATE_STARTED
  | .AAUDIO_STREAM_STATE_STOPPING =>
      match poll with
      | .ok position =>
          let st1 := { st with mFramesRead := st.mFramesRead.update32 position }
          (st1.mFramesRead.value, st1)
      | .err _ => (st.mFramesRead.value, st)
  | _ => (st.mFramesRead.value, st)

/-- Outputs of a sequence of `getFramesRead` calls: each step fixes the
stream state the call observes (modelling the non-flush non-stop
operations that may run between the calls, none of which touch the
read counter) and the sink position reply for that call. -/
def readsOutputs : AudioStreamTrack → List (aaudio_stream_state_t × PollResult) → List Int
  | _, [] => []
  | st, (s, p) :: rest =>
      (AudioStreamTrack.getFramesRead { st with mState := s } p).1 ::
        readsOutputs (AudioStreamTrack.getFramesRead { st with mState := s } p).2 rest

/-- Modelled from the spec: the largest byte count representable in the
32-bit signed size the frame-to-byte conversion produces. -/
def INT32_MAX : Int := 2 ^ 31 - 1

/-- Modelled from the spec: `AAudioConvert_framesToBytes` (defined in
`AAudioUtilities.cpp`, not among the sources) converts a frame count
to a byte count using the bytes-per-frame of the stream and fails with
a size/overflow error when the product is not representable. -/
def AAudioConvert_framesToBytes (numFrames bytesPerFrame : Int) :
    Except aaudio_result_t Int :=
  if 0 ≤ numFrames ∧ numFrames * bytesPerFrame ≤ INT32_MAX then
    .ok (numFrames * bytesPerFrame)
  else
    .error .AAUDIO_ERROR_OUT_OF_RANGE

/-- Reply of the sink `write` call: the WOULD_BLOCK sentinel, a
negative status, or a non-negative count of accepted bytes. -/
inductive SinkWriteReply where
  | wouldBlock
  | failed (status : Int)
  | accepted (bytes : Nat)
deriving DecidableEq, Repr

/-- Value of the C `write` member, whose single integer return conflates
a non-negative accepted frame count with a negative error code; the
two arms of that partition are kept as distinct constructors. -/
inductive WriteReturn where
  | count (frames : Nat)
  | failure (e : aaudio_result_t)
deriving DecidableEq, Repr

/-- Embedding of `AudioStreamTrack::write` (source lines 223-246):
convert the requested frames to bytes (propagating a conversion
failure), hand the bytes to the sink with the blocking flag
`timeoutNanoseconds > 0` (`reply` is the sink outcome), return zero
frames on WOULD_BLOCK, map any negative sink status, and otherwise
divide the accepted bytes by bytes-per-frame, incrementing the
written-frame accountant by that quotient and returning it. -/
def AudioStreamTrack.write (st : AudioStreamTrack) (numFrames timeoutNanoseconds : Int)
    (reply : SinkWriteReply) : WriteReturn × AudioStreamTrack :=
  match AAudioConvert_framesToBytes numFrames (st.bytesPerFrame : Int) with
  | .error e => (.failure e, st)
  | .ok _numBytes =>
      let _blocking := timeoutNanoseconds > 0
      match reply with
      | .wouldBlock => (.count 0, st)
      | .failed s => (.failure (AAudioConvert_androidToAAudioResult s), st)
      | .accepted bytes =>
          let framesWritten := bytes / st.bytesPerFrame
          (.count framesWritten,
           { st with mFramesWritten := st.mFramesWritten.increment (framesWritten : Int) })

/-- Modelled from the spec: the timestamp sample retrieved from the
sink (`ExtendedTimestamp`, not among the sources): a small set of
(position, time) pairs per internal clock base, collapsed by
`getBestTimestamp` into one pair for a requested base, which can fail
with a status when no sample for that base was ever recorded. -/
structure ExtendedTimestamp where
  getBestTimestamp : Int → Except Int (Int × Int)

/-- Modelled from the spec: internal base identifier of the sink for
the monotonic clock. -/
def TIMEBASE_MONOTONIC : Int := 0

/-- Modelled from the spec: internal base identifier of the sink for
the boot-time clock. -/
def TIMEBASE_BOOTTIME : Int := 1

/-- Modelled from the spec: caller-side clock base identifier of the
monotonic clock (the numeric values only need to be distinct). -/
def CLOCK_MONOTONIC : Int := 1

/-- Modelled from the spec: caller-side clock base identifier of the
boot-time clock. -/
def CLOCK_BOOTTIME : Int := 7

/-- Embedding of `AudioStreamTrack::getTimestamp` (source lines
296-320): first retrieve the timestamp sample from the sink
(`sinkTimestamp`), mapping a retrieval failure; then map the requested
clock base, failing with the unexpected-value error on any base other
than boot-time or monotonic without consulting the retrieved sample;
finally ask the sample for its best pair for that base, mapping its
status.  The output pair replaces the two out-parameters. -/
def AudioStreamTrack.getTimestamp (_st : AudioStreamTrack) (clockId : Int)
    (sinkTimestamp : Except Int ExtendedTimestamp) :
    aaudio_result_t × Option (Int × Int) :=
  match sinkTimestamp with
  | .error s => (AAudioConvert_androidToAAudioResult s, none)
  | .ok extendedTimestamp =>
      if clockId = CLOCK_BOOTTIME then
        match extendedTimestamp.getBestTimestamp TIMEBASE_BOOTTIME with
        | .ok pair => (.AAUDIO_OK, some pair)
        | .error s => (AAudioConvert_androidToAAudioResult s, none)
      else if clockId = CLOCK_MONOTONIC then
        match extendedTimestamp.getBestTimestamp TIMEBASE_MONOTONIC with
        | .ok pair => (.AAUDIO_OK, some pair)
        | .error s => (AAudioConvert_androidToAAudioResult s, none)
      else
        (.AAUDIO_ERROR_UNEXPECTED_VALUE, none)

/-- A freshly constructed, uninitialized stream used as the base of the
concrete examples below. -/
def exStream : AudioStreamTrack where
  mState := .AAUDIO_STREAM_STATE_UNINITIALIZED
  mFramesRead := { value := 0, lastRaw := 0 }
  mFramesWritten := { value := 0, lastRaw := 0 }
  mPositionWhenStarting := 0
  mPositionWhenPausing := 0
  mHasTrack := false
  mSampleRate := 48000
  mSamplesPerFrame := 2
  mFormat := 0
  bytesPerFrame := 4

/-- A paused stream with ten frames written, three confirmed read, and
a last observed raw read position of five. -/
def exPaused : AudioStreamTrack :=
  { exStream with
    mState := .AAUDIO_STREAM_STATE_PAUSED,
    mHasTrack := true,
    mFramesRead := { value := 3, lastRaw := 5 },
    mFramesWritten := { value := 10, lastRaw := 7 } }

/-- A started stream with a live sink. -/
def exStarted : AudioStreamTrack :=
  { exStream with
    mState := .AAUDIO_STREAM_STATE_STARTED,
    mHasTrack := true }

/-- A concrete negotiated-parameter record for the open examples. -/
def exSink : SinkParams where
  channelCount := 2
  sampleRate := 48000
  format := 5

/-- A concrete timestamp sample for the timestamp examples. -/
def exTimestamp : ExtendedTimestamp where
  getBestTimestamp := fun _ => .ok (100, 200)

/-- A stream in the PAUSING state with a snapshot position of five. -/
def exPausing : AudioStreamTrack :=
  { exStream with
    mState := .AAUDIO_STREAM_STATE_PAUSING,
    mHasTrack := true,
    mPositionWhenPausing := 5 }

lemma MonotonicCounter.value_le_update32 (c : MonotonicCounter) (raw : Nat) :
    c.value ≤ (c.update32 raw).value := by
  unfold MonotonicCounter.update32
  split <;> simp
  all_goals omega

lemma getFramesRead_le (st : AudioStreamTrack) (poll : PollResult) :
    st.mFramesRead.value ≤ (st.getFramesRead poll).1 := by
  unfold AudioStreamTrack.getFramesRead
  cases hs : st.mState <;> cases poll <;>
    simp [hs, MonotonicCounter.value_le_update32]

lemma getFramesRead_snd_value (st : AudioStreamTrack) (poll : PollResult) :
    (st.getFramesRead poll).2.mFramesRead.value = (st.getFramesRead poll).1 := by
  unfold AudioStreamTrack.getFramesRead
  cases hs : st.mState <;> cases poll <;> simp [hs]

lemma readsOutputs_chain (steps : List (aaudio_stream_state_t × PollResult)) :
    ∀ st : AudioStreamTrack,
      List.Chain' (· ≤ ·) (st.mFramesRead.value :: readsOutputs st steps) := by
  induction steps with
  | nil => intro st; simp [readsOutputs]
  | cons step rest ih =>
      intro st
      obtain ⟨s, p⟩ := step
      have hle : st.mFramesRead.value ≤
          (AudioStreamTrack.getFramesRead { st with mState := s } p).1 :=
        getFramesRead_le { st with mState := s } p
      have hch := ih (AudioStreamTrack.getFramesRead { st with mState := s } p).2
      rw [getFramesRead_snd_value] at hch
      simp only [readsOutputs]
      exact List.chain'_cons.mpr ⟨hle, hch⟩

lemma updateState_flushing_inv (st : AudioStreamTrack) (hs sp : Bool) (poll : PollResult)
    (h : st.mState = .AAUDIO_STREAM_STATE_FLUSHING ∨
         st.mState = .AAUDIO_STREAM_STATE_FLUSHED) :
    ((st.updateState hs sp poll).2.mState = .AAUDIO_STREAM_STATE_FLUSHING ∨
      (st.updateState hs sp poll).2.mState = .AAUDIO_STREAM_STATE_FLUSHED) ∧
    (st.updateState hs sp poll).2.mFramesRead = st.mFramesRead ∧
    (st.updateState hs sp poll).2.mFramesWritten = st.mFramesWritten := by
  rcases h with h | h
  · cases poll with
    | err s => simp [AudioStreamTrack.updateState, h]
    | ok p =>
        by_cases hp : p = 0 <;> simp [AudioStreamTrack.updateState, h, hp]
  · simp [AudioStreamTrack.updateState, h]

lemma runUpdateState_flushing_inv (obs : List (Bool × Bool × PollResult)) :
    ∀ st : AudioStreamTrack,
      (st.mState = .AAUDIO_STREAM_STATE_FLUSHING ∨
        st.mState = .AAUDIO_STREAM_STATE_FLUSHED) →
      ((runUpdateState st obs).mState = .AAUDIO_STREAM_STATE_FLUSHING ∨
        (runUpdateState st obs).mState = .AAUDIO_STREAM_STATE_FLUSHED) ∧
      (runUpdateState st obs).mFramesRead = st.mFramesRead ∧
      (runUpdateState st obs).mFramesWritten = st.mFramesWritten := by
  induction obs with
  | nil => intro st h; exact ⟨h, rfl, rfl⟩
  | cons ob rest ih =>
      intro st h
      obtain ⟨hs, sp, poll⟩ := ob
      have h1 := updateState_flushing_inv st hs sp poll h
      have h2 := ih (st.updateState hs sp poll).2 h1.1
      simp only [runUpdateState]
      exact ⟨h2.1, h2.2.1.trans h1.2.1, h2.2.2.trans h1.2.2⟩


/-- C3: for every sequence of `getFramesRead` calls on one stream that
contains no intervening `requestFlush` or `requestStop` (modelled by
letting the stream state observed by each call vary arbitrarily while
the read counter evolves only through the calls themselves), the
returned 64-bit frame counts are non-decreasing, including across
wraps of the raw sink position. -/
theorem getFramesRead_nondecreasing (st : AudioStreamTrack)
    (steps : List (aaudio_stream_state_t × PollResult)) :
    List.Chain' (· ≤ ·) (readsOutputs st steps) :=
  (readsOutputs_chain steps st).tail

/-- C9: a `getFramesRead` call made while the state is not STARTING,
STARTED or STOPPING does not poll the sink (its outcome is the same
for every poll reply) and leaves the tracker unchanged, returning the
last known monotonic count; only in STARTING, STARTED or STOPPING is
the polled position folded into the accumulator. -/
theorem getFramesRead_poll_gating (st : AudioStreamTrack) (poll : PollResult) (p : Nat) :
    (st.mState ≠ .AAUDIO_STREAM_STATE_STARTING ∧
     st.mState ≠ .AAUDIO_STREAM_STATE_STARTED ∧
     st.mState ≠ .AAUDIO_STREAM_STATE_STOPPING →
       st.getFramesRead poll = (st.mFramesRead.value, st)) ∧
    ((st.mState = .AAUDIO_STREAM_STATE_STARTING ∨
      st.mState = .AAUDIO_STREAM_STATE_STARTED ∨
      st.mState = .AAUDIO_STREAM_STATE_STOPPING) →
       st.getFramesRead (PollResult.ok p) =
         ((st.mFramesRead.update32 p).value,
          { st with mFramesRead := st.mFramesRead.update32 p })) := by
  constructor
  · intro h
    unfold AudioStreamTrack.getFramesRead
    cases hs : st.mState <;> simp_all
  · intro h
    unfold AudioStreamTrack.getFramesRead
    rcases h with h | h | h <;> rw [h]

/-- C9 witness: in the PAUSED state a call returns the stored count
and changes nothing, whatever the poll reply would have been. -/
theorem getFramesRead_poll_gating_witness :
    exPaused.getFramesRead (PollResult.ok 9) = (exPaused.mFramesRead.value, exPaused) :=
  (getFramesRead_poll_gating exPaused (PollResult.ok 9) 9).1 (by decide)

/-- C7: `requestPause` on a stream whose state is neither STARTING nor
STARTED, or whose sink is absent, returns the invalid-state error and
leaves the stream (state included) unchanged. -/
theorem requestPause_invalid_state (st : AudioStreamTrack) (poll : PollResult)
    (h : st.mHasTrack = false ∨
         (st.mState ≠ .AAUDIO_STREAM_STATE_STARTING ∧
          st.mState ≠ .AAUDIO_STREAM_STATE_STARTED)) :
    st.requestPause poll = (.AAUDIO_ERROR_INVALID_STATE, st) := by
  unfold AudioStreamTrack.requestPause
  rcases h with h | h
  · rw [if_pos h]
  · by_cases ht : st.mHasTrack = false
    · rw [if_pos ht]
    · rw [if_neg ht, if_pos h]

/-- C7 witness: pausing an OPEN (never started) stream with a live
sink fails with the invalid-state error and changes nothing. -/
theorem requestPause_invalid_state_witness :
    ({ exStream with mState := .AAUDIO_STREAM_STATE_OPEN,
                     mHasTrack := true } : AudioStreamTrack).requestPause (PollResult.ok 0) =
      (.AAUDIO_ERROR_INVALID_STATE,
       { exStream with mState := .AAUDIO_STREAM_STATE_OPEN, mHasTrack := true }) :=
  requestPause_invalid_state
    { exStream with mState := .AAUDIO_STREAM_STATE_OPEN, mHasTrack := true }
    (PollResult.ok 0) (Or.inr (by decide))

/-- C10: when the sink is absent or the state is not PAUSED,
`requestFlush` returns the invalid-state error with the whole stream
(state, framesRead, framesWritten) unchanged and issues no sink
command; the frames-read fold happens only after the precondition
checks pass. -/
theorem requestFlush_precondition_failure (st : AudioStreamTrack)
    (h : st.mHasTrack = false ∨ st.mState ≠ .AAUDIO_STREAM_STATE_PAUSED) :
    st.requestFlush = (.AAUDIO_ERROR_INVALID_STATE, st, ([] : List SinkCmd)) := by
  unfold AudioStreamTrack.requestFlush
  rcases h with h | h
  · rw [if_pos h]
  · by_cases ht : st.mHasTrack = false
    · rw [if_pos ht]
    · rw [if_neg ht, if_pos h]

/-- C10 witness: flushing a STARTED stream fails with the
invalid-state error, changes nothing and issues no sink command. -/
theorem requestFlush_precondition_failure_witness :
    exStarted.requestFlush = (.AAUDIO_ERROR_INVALID_STATE, exStarted, ([] : List SinkCmd)) :=
  requestFlush_precondition_failure exStarted (Or.inr (by decide))

/-- C5: a `write` whose frame count converts cleanly to bytes, called
with a non-positive timeout (non-blocking) against a sink that signals
would-block, returns a zero frame count through the success arm (not a
negative error) and leaves the stream, its written-frame counter
included, unchanged. -/
theorem write_nonblocking_would_block (st : AudioStreamTrack)
    (numFrames timeoutNanoseconds : Int)
    (_ht : timeoutNanoseconds ≤ 0)
    (hc : 0 ≤ numFrames ∧ numFrames * (st.bytesPerFrame : Int) ≤ INT32_MAX) :
    st.write numFrames timeoutNanoseconds SinkWriteReply.wouldBlock =
      (WriteReturn.count 0, st) := by
  unfold AudioStreamTrack.write AAudioConvert_framesToBytes
  rw [if_pos hc]

/-- C5 witness: a non-blocking write of 100 frames against a full sink
returns zero frames and leaves the stream unchanged. -/
theorem write_nonblocking_would_block_witness :
    exStarted.write 100 0 SinkWriteReply.wouldBlock = (WriteReturn.count 0, exStarted) :=
  write_nonblocking_would_block exStarted 100 0 (by decide) (by decide)

/-- C6: a `write` whose frame count converts cleanly to bytes, against
a sink that accepts a non-negative byte count, returns the number of
whole frames accepted (accepted bytes divided by bytes-per-frame) and
increments the written-frame counter by exactly that quotient. -/
theorem write_accepted_frames (st : AudioStreamTrack)
    (numFrames timeoutNanoseconds : Int) (bytes : Nat)
    (hc : 0 ≤ numFrames ∧ numFrames * (st.bytesPerFrame : Int) ≤ INT32_MAX) :
    st.write numFrames timeoutNanoseconds (SinkWriteReply.accepted bytes) =
      (WriteReturn.count (bytes / st.bytesPerFrame),
       { st with mFramesWritten :=
           st.mFramesWritten.increment ((bytes / st.bytesPerFrame : Nat) : Int) }) := by
  unfold AudioStreamTrack.write AAudioConvert_framesToBytes
  rw [if_pos hc]

/-- C6 witness: requesting 100 frames (four bytes per frame) of which
the sink accepts 160 bytes returns 40 frames, not an error, and the
written-frame count grows by exactly 40. -/
theorem write_accepted_frames_witness :
    (exStarted.write 100 0 (SinkWriteReply.accepted 160)).1 = WriteReturn.count 40 ∧
    (exStarted.write 100 0 (SinkWriteReply.accepted 160)).2.mFramesWritten.value =
      exStarted.mFramesWritten.value + 40 := by
  rw [write_accepted_frames exStarted 100 0 160 (by decide)]
  decide

/-- C8: with a successfully retrieved timestamp sample, any clock base
other than boot-time or monotonic makes `getTimestamp` fail with the
unsupported-value error, for every possible sample content, so the
retrieved sample is never consulted. -/
theorem getTimestamp_unsupported_clock (st : AudioStreamTrack) (clockId : Int)
    (ts : ExtendedTimestamp)
    (h1 : clockId ≠ CLOCK_BOOTTIME) (h2 : clockId ≠ CLOCK_MONOTONIC) :
    st.getTimestamp clockId (Except.ok ts) = (.AAUDIO_ERROR_UNEXPECTED_VALUE, none) := by
  simp [AudioStreamTrack.getTimestamp, h1, h2]

/-- C8 witness: the realtime clock identifier (2) is rejected with the
unsupported-value error on a concrete sample. -/
theorem getTimestamp_unsupported_clock_witness :
    exStream.getTimestamp 2 (Except.ok exTimestamp) =
      (.AAUDIO_ERROR_UNEXPECTED_VALUE, none) :=
  getTimestamp_unsupported_clock exStream 2 exTimestamp (by decide) (by decide)

/-- C4: `requestPause` from STARTED succeeds, marks PAUSING and
snapshots the polled position; from PAUSING, `updateState` advances to
PAUSED exactly when the sink reports stopped and the newly polled
position equals the stored snapshot (two consecutive observations of
the same position), and on a differing position it stays out of PAUSED
and replaces the snapshot with the new position. -/
theorem pause_then_poll_converges (st st2 : AudioStreamTrack) (q : Nat) (hs sp : Bool)
    (poll : PollResult)
    (h1 : st.mHasTrack = true) (h2 : st.mState = .AAUDIO_STREAM_STATE_STARTED)
    (h3 : st2.mState = .AAUDIO_STREAM_STATE_PAUSING) :
    ((st.requestPause (PollResult.ok q)).1 = .AAUDIO_OK ∧
      (st.requestPause (PollResult.ok q)).2.mState = .AAUDIO_STREAM_STATE_PAUSING ∧
      (st.requestPause (PollResult.ok q)).2.mPositionWhenPausing = q) ∧
    ((st2.updateState hs sp poll).2.mState = .AAUDIO_STREAM_STATE_PAUSED ↔
      sp = true ∧ poll = PollResult.ok st2.mPositionWhenPausing) ∧
    (∀ p : Nat, sp = true → poll = PollResult.ok p →
      (st2.updateState hs sp poll).2.mPositionWhenPausing = p) := by
  refine ⟨?_, ?_, ?_⟩
  · unfold AudioStreamTrack.requestPause
    simp [h1, h2]
  · unfold AudioStreamTrack.updateState
    cases sp with
    | false => simp [h3]
    | true =>
        cases poll with
        | err s => simp [h3]
        | ok p =>
            by_cases hp : p = st2.mPositionWhenPausing <;> simp [h3, hp]
  · intro p hsp hpoll
    subst hsp hpoll
    unfold AudioStreamTrack.updateState
    by_cases hp : p = st2.mPositionWhenPausing <;> simp [h3, hp]

/-- C4 witness: with the snapshot at five, a poll of five with the sink
stopped reaches PAUSED. -/
theorem pause_then_poll_converges_witness :
    (exPausing.updateState false true (PollResult.ok 5)).2.mState =
      .AAUDIO_STREAM_STATE_PAUSED :=
  (pause_then_poll_converges exStarted exPausing 5 false true (PollResult.ok 5)
      (by decide) (by decide) (by decide)).2.1.mpr ⟨rfl, by decide⟩

/-- C2 counterexample: on a concrete open whose sink construction
fails (initCheck status -12), the mapped error is returned and the
sink is released, but the stream does not remain in the UNINITIALIZED
state: the failure path calls close, which leaves it CLOSED. -/
theorem openStream_failure_state_closed :
    (exStream.openStream .AAUDIO_OK (-12) exSink).1 =
        AAudioConvert_androidToAAudioResult (-12) ∧
    (exStream.openStream .AAUDIO_OK (-12) exSink).2.mHasTrack = false ∧
    (exStream.openStream .AAUDIO_OK (-12) exSink).2.mState =
        .AAUDIO_STREAM_STATE_CLOSED ∧
    (exStream.openStream .AAUDIO_OK (-12) exSink).2.mState ≠
        .AAUDIO_STREAM_STATE_UNINITIALIZED := by
  decide

/-- C2 amended: for every open call on a not-yet-closed stream whose
sink reports a construction failure, open returns the mapped error and
the stream is fully torn down, never half-open: the partially created
sink is released and the state is CLOSED (not UNINITIALIZED), with all
other stream fields unchanged. -/
theorem openStream_failure_rollback (st : AudioStreamTrack) (status : Int)
    (sink : SinkParams)
    (h1 : status ≠ 0) (h2 : st.mState ≠ .AAUDIO_STREAM_STATE_CLOSED) :
    st.openStream .AAUDIO_OK status sink =
      (AAudioConvert_androidToAAudioResult status,
       { st with mHasTrack := false, mState := .AAUDIO_STREAM_STATE_CLOSED }) := by
  unfold AudioStreamTrack.openStream AudioStreamTrack.close
  simp [h1, h2]

/-- C2 amended witness: a concrete failing open returns the mapped
error and leaves a released, CLOSED stream. -/
theorem openStream_failure_rollback_witness :
    exStream.openStream .AAUDIO_OK (-19) exSink =
      (AAudioConvert_androidToAAudioResult (-19),
       { exStream with mHasTrack := false, mState := .AAUDIO_STREAM_STATE_CLOSED }) :=
  openStream_failure_rollback exStream (-19) exSink (by decide) (by decide)

/-- C1 counterexample: from a concrete PAUSED stream with last
observed raw read position five, `requestFlush` succeeds and a
position poll of zero reaches FLUSHED, but the next `getFramesRead`
wrapped-position fold does not start from zero: the read-side
reference raw value is still five (only the written-frame accumulator
was reset), so a subsequent poll at raw position one is misread as a
wrap instead of advancing the count by one. -/
theorem requestFlush_read_fold_not_from_zero :
    exPaused.requestFlush.1 = .AAUDIO_OK ∧
    (exPaused.requestFlush.2.1.updateState false false (PollResult.ok 0)).2.mState =
        .AAUDIO_STREAM_STATE_FLUSHED ∧
    (exPaused.requestFlush.2.1.updateState false false (PollResult.ok 0)).2.mFramesRead.lastRaw
        ≠ 0 ∧
    (({ (exPaused.requestFlush.2.1.updateState false false (PollResult.ok 0)).2 with
          mState := .AAUDIO_STREAM_STATE_STARTED } :
        AudioStreamTrack).getFramesRead (PollResult.ok 1)).1 ≠
      (exPaused.requestFlush.2.1.updateState false false (PollResult.ok 0)).2.mFramesRead.value
        + 1 := by
  decide

/-- C1 amended: from PAUSED, a successful `requestFlush` followed by
any `updateState` observations leaves, in every state reached and in
particular once a position poll of zero reaches FLUSHED, framesRead
equal to framesWritten and the written-frame accumulator with its
wrapping portion reset to zero; the read-side fold reference is not
reset and keeps the last raw position observed before the flush. -/
theorem requestFlush_flushed_accounting (st : AudioStreamTrack)
    (obs : List (Bool × Bool × PollResult))
    (h1 : st.mHasTrack = true) (h2 : st.mState = .AAUDIO_STREAM_STATE_PAUSED) :
    st.requestFlush.1 = .AAUDIO_OK ∧
    ((runUpdateState st.requestFlush.2.1 obs).mState = .AAUDIO_STREAM_STATE_FLUSHED →
      (runUpdateState st.requestFlush.2.1 obs).mFramesRead.value =
        (runUpdateState st.requestFlush.2.1 obs).mFramesWritten.value ∧
      (runUpdateState st.requestFlush.2.1 obs).mFramesWritten.lastRaw = 0 ∧
      (runUpdateState st.requestFlush.2.1 obs).mFramesRead.lastRaw =
        st.mFramesRead.lastRaw) := by
  have hfl : st.requestFlush.2.1.mState = .AAUDIO_STREAM_STATE_FLUSHING := by
    unfold AudioStreamTrack.requestFlush
    simp [h1, h2]
  constructor
  · unfold AudioStreamTrack.requestFlush
    simp [h1, h2]
  · intro _hreach
    obtain ⟨-, hr, hw⟩ := runUpdateState_flushing_inv obs st.requestFlush.2.1 (Or.inl hfl)
    rw [hr, hw]
    unfold AudioStreamTrack.requestFlush
    simp [h1, h2, MonotonicCounter.increment, MonotonicCounter.reset32]

/-- C1 amended witness: the concrete PAUSED stream, flushed and driven
to FLUSHED by a zero position poll, satisfies the amended claim. -/
theorem requestFlush_flushed_accounting_witness :
    exPaused.requestFlush.1 = .AAUDIO_OK ∧
    ((runUpdateState exPaused.requestFlush.2.1 [(false, false, PollResult.ok 0)]).mState =
        .AAUDIO_STREAM_STATE_FLUSHED →
      (runUpdateState exPaused.requestFlush.2.1
            [(false, false, PollResult.ok 0)]).mFramesRead.value =
        (runUpdateState exPaused.requestFlush.2.1
            [(false, false, PollResult.ok 0)]).mFramesWritten.value ∧
      (runUpdateState exPaused.requestFlush.2.1
            [(false, false, PollResult.ok 0)]).mFramesWritten.lastRaw = 0 ∧
      (runUpdateState exPaused.requestFlush.2.1
            [(false, false, PollResult.ok 0)]).mFramesRead.lastRaw =
        exPaused.mFramesRead.lastRaw) :=
  requestFlush_flushed_accounting exPaused [(false, false, PollResult.ok 0)]
    (by decide) (by decide)
